import Mathlib

/-!
Verification development for the financial lineage tool.

The definitions below are a shallow embedding of the core of the repository:
the knowledge-graph client (src/knowledge_graph/cosmos_client.py), the SQL
statement analyzer (src/ingestion/code_parser.py) and the request validation
of the HTTP layer (src/api/main.py).  Gremlin queries are embedded by their
traversal semantics over an explicit store of vertices and edges; Python
exceptions are embedded as Except values; Python sets are embedded as
duplicate-free lists.
-/

namespace FinLineage

/-- Types of entities in the lineage graph (class EntityType). -/
inductive EntityType
  | Table
  | View
  | Column
  | Script
  | Pipeline
  | Transformation
  | DataType
  deriving DecidableEq, Repr

/-- Types of relationships in the lineage graph (class RelationshipType). -/
inductive RelationshipType
  | DERIVES_FROM
  | TRANSFORMS_TO
  | CONTAINS
  | EXECUTES
  | READS_FROM
  | WRITES_TO
  | CASTS_TO
  | JOINS_WITH
  | DEPENDS_ON
  deriving DecidableEq, Repr

/-- An entity (vertex) of the knowledge graph (dataclass GraphEntity).
The free-form properties map of the dataclass is not modelled; no claim
touches it. -/
structure GraphEntity where
  id : String
  entity_type : EntityType
  name : String
  database : Option String := none
  schema : Option String := none
  data_type : Option String := none
  file_path : Option String := none
  deriving DecidableEq, Repr

/-- A relationship (edge) of the knowledge graph (dataclass GraphRelationship).
Confidence scores are embedded as rationals; the Python value is a float
but the code only stores and forwards it. -/
structure GraphRelationship where
  source_id : String
  target_id : String
  relationship_type : RelationshipType
  transformation_logic : Option String := none
  confidence_score : Rat := 1
  deriving DecidableEq, Repr

/-- Helper create_table_entity: id is the lowercased fully qualified name
with dots replaced by underscores. -/
def create_table_entity (database schema table_name : String)
    (is_view : Bool := false) : GraphEntity :=
  let full_name := database ++ "." ++ schema ++ "." ++ table_name
  { id := (full_name.toLower).replace "." "_"
    entity_type := if is_view then EntityType.View else EntityType.Table
    name := table_name
    database := some database
    schema := some schema }

/-- Helper create_column_entity: id is the owning table id, an underscore,
and the lowercased column name. -/
def create_column_entity (table_entity_id column_name data_type : String) :
    GraphEntity :=
  { id := table_entity_id ++ "_" ++ column_name.toLower
    entity_type := EntityType.Column
    name := column_name
    data_type := some data_type }

/-- Helper create_derives_from_relationship: the stored edge runs from the
derived column to its origin (source_id is the target of the derivation,
target_id is the origin). -/
def create_derives_from_relationship (source_column_id target_column_id : String)
    (transformation : Option String := none) (confidence : Rat := 1) :
    GraphRelationship :=
  { source_id := target_column_id
    target_id := source_column_id
    relationship_type := RelationshipType.DERIVES_FROM
    transformation_logic := transformation
    confidence_score := confidence }

/-- The graph store: the vertices and edges currently held by the Cosmos
graph container.  Cosmos keeps vertex ids unique; the operations below
preserve that when the initial store does. -/
structure Store where
  vertices : List GraphEntity
  edges : List GraphRelationship
  deriving DecidableEq, Repr

/-- Number of vertices in the store. -/
def Store.vertexCount (s : Store) : Nat := s.vertices.length

/-- Number of edges in the store. -/
def Store.edgeCount (s : Store) : Nat := s.edges.length

/-- Whether g.V(id) resolves to a vertex. -/
def Store.hasVertex (s : Store) (id : String) : Bool :=
  s.vertices.any (fun v => v.id == id)

/-- Effect of the property-setting Gremlin steps emitted by
to_gremlin_properties on an existing vertex: name and entity_type are always
written, the optional fields only when the new entity carries a truthy
(present and nonempty) value. -/
def applyProperties (old new : GraphEntity) : GraphEntity :=
  let keep : Option String → Option String → Option String := fun o n =>
    match n with
    | none => o
    | some s => if s = "" then o else some s
  { old with
    name := new.name
    entity_type := new.entity_type
    database := keep old.database new.database
    schema := keep old.schema new.schema
    data_type := keep old.data_type new.data_type
    file_path := keep old.file_path new.file_path }

/-- create_entity: g.addV with the entity id and its properties. -/
def create_entity (s : Store) (e : GraphEntity) : Store :=
  { s with vertices := s.vertices ++ [e] }

/-- upsert_entity: counts vertices with the id; when one exists its
properties are updated in place, otherwise the vertex is created. -/
def upsert_entity (s : Store) (e : GraphEntity) : Store :=
  if s.hasVertex e.id then
    { s with
      vertices := s.vertices.map (fun v =>
        if v.id == e.id then applyProperties v e else v) }
  else create_entity s e

/-- create_relationship: g.V(source).addE(label).to(g.V(target)) appends one
edge when both endpoints resolve.  It is a blind insert: no check for an
already existing edge is made. -/
def create_relationship (s : Store) (r : GraphRelationship) : Store :=
  if s.hasVertex r.source_id && s.hasVertex r.target_id then
    { s with edges := s.edges ++ [r] }
  else s

/-- One Gremlin traverser inside a repeat loop: the visited vertex ids in
reverse order (the head is the current position) and the traversed edges in
reverse order. -/
structure Traverser where
  revVerts : List String
  revEdges : List GraphRelationship
  deriving DecidableEq, Repr

/-- Current position of a traverser. -/
def Traverser.cur (t : Traverser) : String := t.revVerts.headI

/-- The edge labels followed by the lineage queries. -/
def lineageLabels : List RelationshipType :=
  [RelationshipType.DERIVES_FROM, RelationshipType.TRANSFORMS_TO]

/-- The edges matching inE(labels) at a vertex, optionally restricted to
edges carrying a transformation_logic property. -/
def inEdgesAt (edges : List GraphRelationship) (labels : List RelationshipType)
    (requireLogic : Bool) (v : String) : List GraphRelationship :=
  edges.filter (fun e =>
    labels.contains e.relationship_type && e.target_id == v
      && (!requireLogic || e.transformation_logic.isSome))

/-- The edges matching outE(labels) at a vertex. -/
def outEdgesAt (edges : List GraphRelationship) (labels : List RelationshipType)
    (v : String) : List GraphRelationship :=
  edges.filter (fun e =>
    labels.contains e.relationship_type && e.source_id == v)

/-- inE(labels).outV().simplePath(): step against each matching incoming
edge to its tail vertex, dropping steps that would repeat a vertex on the
path. -/
def stepIn (edges : List GraphRelationship) (labels : List RelationshipType)
    (requireLogic : Bool) (t : Traverser) : List Traverser :=
  (inEdgesAt edges labels requireLogic t.cur).filterMap (fun e =>
    if t.revVerts.contains e.source_id then none
    else some ⟨e.source_id :: t.revVerts, e :: t.revEdges⟩)

/-- outE(labels).inV().simplePath(): step along each matching outgoing edge
to its head vertex, dropping steps that would repeat a vertex on the path. -/
def stepOut (edges : List GraphRelationship) (labels : List RelationshipType)
    (t : Traverser) : List Traverser :=
  (outEdgesAt edges labels t.cur).filterMap (fun e =>
    if t.revVerts.contains e.target_id then none
    else some ⟨e.target_id :: t.revVerts, e :: t.revEdges⟩)

/-- Gremlin repeat(body).until(cond): the until clause is checked after each
iteration of the body; traversers satisfying it at the current loop count are
emitted, the rest keep looping, and a traverser whose body step yields no
successors disappears.  The fuel argument is the number of iterations still
possible; the queries below emit every surviving traverser once the loop
counter reaches their depth bound, so a fuel equal to that bound is exact
for bounds of at least one. -/
def repeatUntil (step : Traverser → List Traverser)
    (emit : Nat → Traverser → Bool) :
    Nat → Nat → List Traverser → List Traverser
  | 0, _, _ => []
  | fuel + 1, loops, frontier =>
    let stepped := frontier.flatMap step
    stepped.filter (emit (loops + 1))
      ++ repeatUntil step emit fuel (loops + 1)
          (stepped.filter (fun t => !(emit (loops + 1) t)))

/-- g.V(entity_id): the initial frontier is the single vertex when it
exists, empty otherwise. -/
def startFrontier (s : Store) (entity_id : String) : List Traverser :=
  if s.hasVertex entity_id then [⟨[entity_id], []⟩] else []

/-- get_upstream_lineage: from the entity, repeat
inE(DERIVES_FROM, TRANSFORMS_TO).outV().simplePath() until no such incoming
edge remains or the loop counter reaches max_depth, and return the path of
vertex ids of every emitted traverser. -/
def get_upstream_lineage (s : Store) (entity_id : String)
    (max_depth : Nat := 10) : List (List String) :=
  (repeatUntil (stepIn s.edges lineageLabels false)
      (fun loops t =>
        (inEdgesAt s.edges lineageLabels false t.cur).isEmpty
          || loops == max_depth)
      max_depth 0 (startFrontier s entity_id)).map
    (fun t => t.revVerts.reverse)

/-- get_downstream_lineage: from the entity, repeat
outE(DERIVES_FROM, TRANSFORMS_TO).inV().simplePath() until no such outgoing
edge remains or the loop counter reaches max_depth, and return the path of
vertex ids of every emitted traverser. -/
def get_downstream_lineage (s : Store) (entity_id : String)
    (max_depth : Nat := 10) : List (List String) :=
  (repeatUntil (stepOut s.edges lineageLabels)
      (fun loops t =>
        (outEdgesAt s.edges lineageLabels t.cur).isEmpty
          || loops == max_depth)
      max_depth 0 (startFrontier s entity_id)).map
    (fun t => t.revVerts.reverse)

/-- Summary result of get_transformation_summary. -/
structure TransformationSummary where
  entity_id : String
  transformations : List String
  transformation_count : Nat
  deriving DecidableEq, Repr

/-- The traversers enumerated by the query of get_transformation_summary:
upstream steps along DERIVES_FROM or TRANSFORMS_TO edges that carry a
transformation_logic property, with an until clause of loops().is(10)
alone. -/
def summaryTraversers (s : Store) (entity_id : String) : List Traverser :=
  repeatUntil (stepIn s.edges lineageLabels true)
    (fun loops _ => loops == 10) 10 0 (startFrontier s entity_id)

/-- The transformation_logic values the Python loop reads off one returned
path, in traversal order: the vertices of these paths carry no such key, the
traversed edges all do. -/
def pathLogics (t : Traverser) : List String :=
  t.revEdges.reverse.filterMap (fun e => e.transformation_logic)

/-- get_transformation_summary: collects every transformation_logic
occurrence across all returned paths; transformation_count is the length of
that collection and transformations is the Python list(set(...)) of it,
embedded as a duplicate-free list with the same membership. -/
def get_transformation_summary (s : Store) (entity_id : String) :
    TransformationSummary :=
  let collected := (summaryTraversers s entity_id).flatMap pathLogics
  { entity_id := entity_id
    transformations := collected.dedup
    transformation_count := collected.length }

/-- Validation of the max_depth field of LineageQueryRequest (a pydantic
Field with default 10 and bounds ge 1, le 50); none stands for an absent
field, which takes the default, and out-of-range values are rejected with a
pydantic validation error. -/
def lineageQueryMaxDepth (provided : Option Int) : Except String Int :=
  let n := provided.getD 10
  if 1 ≤ n ∧ n ≤ 50 then Except.ok n else Except.error "validation error"

/-- The classification of a parsed sqlglot statement node by the isinstance
checks of parse_sql: one of the write types Insert, Update and Create, the
opaque Command fallback, or any other expression. -/
inductive StmtKind
  | insert
  | update
  | create
  | command
  | other
  deriving DecidableEq, Repr

/-- One output projection of the top-level SELECT as resolved by the external
sqlglot library: the serialized target column, the serialized source columns
reached by the lineage walk, and the serialized expression text. -/
structure ColumnSpec where
  target : String
  sources : List String
  transformation : String
  deriving DecidableEq, Repr

/-- A trigger entry of the extraction record. -/
structure TriggerSpec where
  name : String
  target_table : Option String
  deriving DecidableEq, Repr

/-- A synonym entry of the extraction record. -/
structure SynonymSpec where
  name : String
  target_object : Option String
  deriving DecidableEq, Repr

/-- A procedure-call entry of the extraction record; call_type embeds the
key named type in the Python dictionary. -/
structure ProcedureCall where
  name : String
  call_type : String
  target_tables : List String
  deriving DecidableEq, Repr

/-- The fields of a parsed sqlglot tree that parse_sql inspects.
Serialization with sql(), the lineage walk of expression subtrees and the
two fallback regular-expression searches are behaviour of the external
parser library and are embedded as precomputed fields of the tree. -/
structure SqlAst where
  stmtKind : StmtKind
  kindArg : Option (Option String) := none
  thisSql : String := ""
  thisIsTable : Bool := false
  tableArg : Option String := none
  expressionSql : Option String := none
  commandText : String := ""
  cmdTriggerMatch : Option (String × String) := none
  cmdSynonymMatch : Option (String × String) := none
  tables : List String := []
  selectProjections : Option (List ColumnSpec) := none
  commandNodes : List String := []
  anonymousFuncs : List String := []
  deriving DecidableEq, Repr

/-- The extraction record returned by parse_sql, after its sets have been
converted to lists (embedded as duplicate-free lists). -/
structure SqlResult where
  read : List String
  write : Option String
  columns : List ColumnSpec
  functions_and_procedures : List String
  views : List String
  triggers : List TriggerSpec
  synonyms : List SynonymSpec
  materialized_views : List String
  procedure_calls : List ProcedureCall
  deriving DecidableEq, Repr

/-- Outcome of the write-classification branches of parse_sql. -/
structure ClassifyOut where
  write : Option String := none
  views : List String := []
  materialized_views : List String := []
  functions_and_procedures : List String := []
  triggers : List TriggerSpec := []
  synonyms : List SynonymSpec := []
  deriving DecidableEq, Repr

/-- The kind string computed by args.get("kind", "").upper(): a missing key
yields the empty string, while a key bound to Python None makes the upper
call raise an AttributeError, which the surrounding handler turns into a
failed parse. -/
def kindString (a : SqlAst) : Except Unit String :=
  match a.kindArg with
  | none => Except.ok ""
  | some none => Except.error ()
  | some (some s) => Except.ok s.toUpper

/-- The statement-kind dispatch of parse_sql: for the write types it keys on
the kind tag to record views, materialized views, triggers, synonyms,
functions and procedures, or a plain table write target; for an opaque
CREATE command it applies the regular-expression fallbacks for triggers and
synonyms. -/
def classifyStatement (a : SqlAst) : Except Unit ClassifyOut :=
  match a.stmtKind with
  | StmtKind.insert | StmtKind.update | StmtKind.create => do
    let kind ← kindString a
    if kind = "VIEW" then
      Except.ok { write := some a.thisSql, views := [a.thisSql] }
    else if kind = "MATERIALIZED VIEW" then
      Except.ok { write := some a.thisSql, materialized_views := [a.thisSql] }
    else if kind = "TRIGGER" then
      Except.ok { triggers := [⟨a.thisSql, a.tableArg⟩] }
    else if kind = "SYNONYM" then
      Except.ok { synonyms := [⟨a.thisSql, a.expressionSql⟩] }
    else if kind = "FUNCTION" ∨ kind = "PROCEDURE" then
      Except.ok { functions_and_procedures := [a.thisSql] }
    else if a.thisIsTable then
      Except.ok { write := some a.thisSql }
    else
      Except.ok {}
  | StmtKind.command =>
    if a.commandText.toUpper = "CREATE" then
      Except.ok
        { triggers :=
            match a.cmdTriggerMatch with
            | some (n, tgt) => [⟨n, some tgt⟩]
            | none => []
          synonyms :=
            match a.cmdSynonymMatch with
            | some (n, tgt) => [⟨n, some tgt⟩]
            | none => [] }
    else Except.ok {}
  | StmtKind.other => Except.ok {}

/-- The built-in aggregate and cast names that must never be classified as
procedure calls. -/
def builtinFunctionNames : List String :=
  ["COUNT", "SUM", "AVG", "MIN", "MAX", "CAST", "CONVERT"]

/-- _extract_procedure_calls: every Command node found in the tree is
recorded as a stored-procedure call, and every nonempty Anonymous call name
is recorded as a function call unless its upper-cased name is a built-in. -/
def extract_procedure_calls (a : SqlAst) : List ProcedureCall :=
  a.commandNodes.map (fun n => ⟨n, "stored_procedure", []⟩)
    ++ (a.anonymousFuncs.filter (fun n =>
          !(n == "") && !(builtinFunctionNames.contains n.toUpper))).map
        (fun n => ⟨n, "function_call", []⟩)

/-- The body of the try block of parse_sql after a successful parse: the
statement classification, the read set containing every table of the tree
except the write target, the procedure calls, the column-level lineage of a
SELECT expression, and the synthetic console write target when a statement
with reads or columns has no (truthy) write target. -/
def analyzeAst (a : SqlAst) : Except Unit SqlResult := do
  let c ← classifyStatement a
  let read := (a.tables.filter (fun t => !(c.write == some t))).dedup
  let columns := a.selectProjections.getD []
  let write :=
    if c.write.getD "" = "" ∧ (read ≠ [] ∨ columns ≠ []) then some "console"
    else c.write
  Except.ok
    { read := read
      write := write
      columns := columns
      functions_and_procedures := c.functions_and_procedures
      views := c.views
      triggers := c.triggers
      synonyms := c.synonyms
      materialized_views := c.materialized_views
      procedure_calls := extract_procedure_calls a }

/-- Result of sqlglot parse_one on the input text with one dialect: the
call can raise, return a null tree, or return a tree. -/
inductive ParseOutcome
  | raises
  | nullTree
  | tree (a : SqlAst)
  deriving DecidableEq, Repr

/-- Result of resolve_dialect_for_parsing: a resolved dialect name or a
ValueError. -/
inductive DialectOutcome
  | resolved (d : String)
  | valueError
  deriving DecidableEq, Repr

/-- Behaviour of the external collaborators on one parse_sql call: how
dialect resolution goes, what parse_one yields under the resolved dialect,
and what it yields under the raw dialect used as fallback after a
ValueError. -/
structure SqlInput where
  dialect : DialectOutcome
  parseResolved : ParseOutcome
  parseFallback : ParseOutcome
  deriving DecidableEq, Repr

/-- The parse outcome parse_sql actually sees: a dialect-resolution
ValueError is caught with a warning and the raw dialect string is used
as-is. -/
def SqlInput.parse (inp : SqlInput) : ParseOutcome :=
  match inp.dialect with
  | DialectOutcome.resolved _ => inp.parseResolved
  | DialectOutcome.valueError => inp.parseFallback

/-- parse_sql: a raising parse, a null tree, and any exception inside
extraction are all caught by the surrounding handler and mapped to a None
return; a successful extraction is returned as a dictionary. -/
def parse_sql (inp : SqlInput) : Option SqlResult :=
  match inp.parse with
  | ParseOutcome.raises => none
  | ParseOutcome.nullTree => none
  | ParseOutcome.tree a =>
    match analyzeAst a with
    | Except.error _ => none
    | Except.ok r => some r

/-- Modelled from the spec: the batch driver that feeds sibling statements
to the analyzer is not among the analyzed sources; per the spec it applies
the analyzer to each statement in turn, each outcome being the analyzer's
return value. -/
def parseBatch (inps : List SqlInput) : List (Option SqlResult) :=
  inps.map parse_sql

/-- Outcome of one attempt of the underlying Gremlin submit call inside
_execute_query. -/
inductive QueryOutcome
  | ok (rows : List String)
  | gremlinServerError (msg : String)
  | otherError (msg : String)
  deriving DecidableEq, Repr

/-- Whether an attempt outcome is an exception. -/
def QueryOutcome.isErr : QueryOutcome → Bool
  | QueryOutcome.ok _ => false
  | QueryOutcome.gremlinServerError _ => true
  | QueryOutcome.otherError _ => true

/-- tenacity wait_exponential with multiplier 1, min 2 and max 10: the wait
after the given number of completed attempts. -/
def waitExponential (attempt_number : Nat) : Nat :=
  max 2 (min (2 ^ attempt_number) 10)

deriving instance DecidableEq for Except

/-- Observable outcome of one _execute_query call: the surfaced result, the
number of attempts made, and the waits slept between attempts. -/
structure ExecResult where
  result : Except String (List String)
  attempts : Nat
  waits : List Nat
  deriving DecidableEq, Repr

/-- The retry loop of the tenacity decorator with stop_after_attempt 3 and
wait_exponential: the body of _execute_query re-raises every exception it
catches (both the throttling branch and the generic branch raise), so every
failed attempt is retried after an exponential wait until the attempt cap is
reached, and the last error then surfaces. -/
def tenacityGo (behavior : Nat → QueryOutcome) :
    Nat → Nat → List Nat → ExecResult
  | 0, n, ws => ⟨Except.error "stopped", n, ws.reverse⟩
  | fuel + 1, n, ws =>
    match behavior n with
    | QueryOutcome.ok rows => ⟨Except.ok rows, n, ws.reverse⟩
    | QueryOutcome.gremlinServerError m =>
      if fuel == 0 then ⟨Except.error m, n, ws.reverse⟩
      else tenacityGo behavior fuel (n + 1) (waitExponential n :: ws)
    | QueryOutcome.otherError m =>
      if fuel == 0 then ⟨Except.error m, n, ws.reverse⟩
      else tenacityGo behavior fuel (n + 1) (waitExponential n :: ws)

/-- _execute_query as observed by a caller: up to three attempts of the
submit call, whose per-attempt outcomes are given by the behavior
function. -/
def _execute_query (behavior : Nat → QueryOutcome) : ExecResult :=
  tenacityGo behavior 3 1 []

/-- Column entity a of the two-hop scenario. -/
def eA : GraphEntity := { id := "a", entity_type := EntityType.Column, name := "a" }

/-- Column entity b of the two-hop scenario. -/
def eB : GraphEntity := { id := "b", entity_type := EntityType.Column, name := "b" }

/-- Column entity c of the two-hop scenario. -/
def eC : GraphEntity := { id := "c", entity_type := EntityType.Column, name := "c" }

/-- One build pass of the two-hop scenario record over a store: upsert the
three column entities, then create the relationships b DERIVES_FROM a and
c DERIVES_FROM b through the builder helper. -/
def buildOnce (s : Store) : Store :=
  create_relationship
    (create_relationship
      (upsert_entity (upsert_entity (upsert_entity s eA) eB) eC)
      (create_derives_from_relationship "a" "b" (some "t1")))
    (create_derives_from_relationship "b" "c" (some "t2"))

/-- The two-hop scenario graph: b DERIVES_FROM a and c DERIVES_FROM b,
built once from the empty store. -/
def chainStore : Store := buildOnce ⟨[], []⟩

/-- The parsed tree of INSERT INTO x SELECT * FROM x: an Insert whose target
is the table x and whose table references are the write target and the
self-referential read. -/
def astB : SqlAst :=
  { stmtKind := StmtKind.insert
    thisSql := "x"
    thisIsTable := true
    tables := ["x", "x"]
    selectProjections := some [⟨"*", [], "*"⟩] }

/-- A parse_sql call on INSERT INTO x SELECT * FROM x. -/
def inpB : SqlInput :=
  { dialect := DialectOutcome.resolved "tsql"
    parseResolved := ParseOutcome.tree astB
    parseFallback := ParseOutcome.tree astB }

/-- The classification outcome of the self-referential insert. -/
def cB : ClassifyOut := { write := some "x" }

/-- The extraction record of the self-referential insert. -/
def resB : SqlResult :=
  { read := []
    write := some "x"
    columns := [⟨"*", [], "*"⟩]
    functions_and_procedures := []
    views := []
    triggers := []
    synonyms := []
    materialized_views := []
    procedure_calls := [] }

/-- A statement whose kind cannot be classified: none of the isinstance
checks of parse_sql match it and it references no tables. -/
def astOther : SqlAst := { stmtKind := StmtKind.other }

/-- A parse_sql call on the unclassifiable statement. -/
def inpOther : SqlInput :=
  { dialect := DialectOutcome.resolved "tsql"
    parseResolved := ParseOutcome.tree astOther
    parseFallback := ParseOutcome.tree astOther }

/-- A parse_sql call on structurally invalid input: parse_one raises. -/
def inpRaises : SqlInput :=
  { dialect := DialectOutcome.resolved "tsql"
    parseResolved := ParseOutcome.raises
    parseFallback := ParseOutcome.raises }

/-- A CREATE statement whose kind argument is bound to Python None, so the
upper call inside extraction raises an AttributeError. -/
def astKindNone : SqlAst :=
  { stmtKind := StmtKind.create, kindArg := some none, thisSql := "t" }

/-- A parse_sql call whose extraction raises internally. -/
def inpKindNone : SqlInput :=
  { dialect := DialectOutcome.resolved "tsql"
    parseResolved := ParseOutcome.tree astKindNone
    parseFallback := ParseOutcome.tree astKindNone }

/-- A query behaviour that is throttled on every attempt. -/
def alwaysThrottled : Nat → QueryOutcome :=
  fun _ => QueryOutcome.gremlinServerError "Request rate is large"

end FinLineage

namespace FinLineage

/-- C3: entity ids are a deterministic function of the fully qualified name:
the table id is the lowercased dotted name with dots replaced by underscores,
two calls with the same inputs agree, and the column id is the table id
followed by an underscore and the lowercased column name. -/
theorem entity_ids_deterministic :
    (∀ db sch tbl v, (create_table_entity db sch tbl v).id
        = ((db ++ "." ++ sch ++ "." ++ tbl).toLower).replace "." "_")
    ∧ (∀ db sch tbl v,
        create_table_entity db sch tbl v = create_table_entity db sch tbl v)
    ∧ (∀ tid col dt, (create_column_entity tid col dt).id
        = tid ++ "_" ++ col.toLower) :=
  ⟨fun _ _ _ _ => rfl, fun _ _ _ _ => rfl, fun _ _ _ => rfl⟩

/-- C1: the builder stores b DERIVES_FROM a as the edge with source_id b and
target_id a, as the claim states, but get_upstream_lineage follows incoming
DERIVES_FROM edges, which walks against that convention: on the two-hop
chain built by the builder it returns no path from c at all, while
get_downstream_lineage is the call that returns [c, b, a].  The code
contradicts its own documentation of get_upstream_lineage as returning
sources. -/
theorem upstream_inconsistent_with_builder_convention :
    (create_derives_from_relationship "a" "b" (some "t1")).source_id = "b"
    ∧ (create_derives_from_relationship "a" "b" (some "t1")).target_id = "a"
    ∧ get_upstream_lineage chainStore "c" 2 = []
    ∧ get_upstream_lineage chainStore "c" 1 = []
    ∧ get_downstream_lineage chainStore "c" 2 = [["c", "b", "a"]]
    ∧ get_downstream_lineage chainStore "c" 1 = [["c", "b"]]
    ∧ get_upstream_lineage chainStore "a" 2 = [["a", "b", "c"]] := by
  decide

/-- C4 counterexample: building the two-hop scenario twice from the identical
record leaves the vertex count unchanged but doubles the edge count, because
create_relationship blindly appends an edge. -/
theorem rebuild_duplicates_relationships :
    Store.vertexCount (buildOnce chainStore) = Store.vertexCount chainStore
    ∧ Store.edgeCount chainStore = 2
    ∧ Store.edgeCount (buildOnce chainStore) = 4 := by
  decide

/-- C6: get_transformation_summary exposes both a transformation_count that
counts every transformation_logic occurrence across all enumerated paths
(an edge shared by two paths contributes once per path) and a
transformations collection that is the deduplicated set of those strings. -/
theorem transformation_summary_counts :
    ∀ (s : Store) (entity_id : String),
      (get_transformation_summary s entity_id).transformation_count
        = ((summaryTraversers s entity_id).map
            (fun t => (pathLogics t).length)).sum
      ∧ (get_transformation_summary s entity_id).transformations.Nodup
      ∧ ∀ x, x ∈ (get_transformation_summary s entity_id).transformations
          ↔ ∃ t ∈ summaryTraversers s entity_id, x ∈ pathLogics t := by
  intro s entity_id
  refine ⟨?_, ?_, ?_⟩
  · simp only [get_transformation_summary, List.length_flatMap]
    rfl
  · exact List.nodup_dedup _
  · intro x
    simp [get_transformation_summary, List.mem_dedup, List.mem_flatMap]

/-- C7 counterexample: called directly with the out-of-range depth 51, the
traversal operation does not fail: it runs with that value and returns its
ordinary result on the two-hop chain. -/
theorem out_of_range_max_depth_still_runs :
    get_upstream_lineage chainStore "a" 51 = [["a", "b", "c"]] := by
  decide

/-- C7 amended: the traversal operations use a default max_depth of 10 but
perform no range validation themselves; the validation to the range one to
fifty, with a rejection for values outside it, lives in the pydantic field
of LineageQueryRequest, which also defaults to 10. -/
theorem max_depth_defaults_and_api_range :
    (∀ s id, get_upstream_lineage s id = get_upstream_lineage s id 10)
    ∧ (∀ s id, get_downstream_lineage s id = get_downstream_lineage s id 10)
    ∧ lineageQueryMaxDepth none = Except.ok 10
    ∧ (∀ n : Int, lineageQueryMaxDepth (some n) = Except.ok n
        ↔ 1 ≤ n ∧ n ≤ 50)
    ∧ (∀ n : Int, ¬(1 ≤ n ∧ n ≤ 50) →
        lineageQueryMaxDepth (some n) = Except.error "validation error") := by
  refine ⟨fun _ _ => rfl, fun _ _ => rfl, by decide, ?_, ?_⟩
  · intro n
    by_cases h : 1 ≤ n ∧ n ≤ 50
    · simp [lineageQueryMaxDepth, h]
    · simp [lineageQueryMaxDepth, h]
  · intro n h
    simp [lineageQueryMaxDepth, h]

/-- C7 amended witness: the request-model validation rejects 51. -/
theorem max_depth_defaults_and_api_range_witness :
    lineageQueryMaxDepth (some 51) = Except.error "validation error" :=
  max_depth_defaults_and_api_range.2.2.2.2 51 (by decide)

/-- Updating properties never changes the vertex id. -/
theorem applyProperties_id (v e : GraphEntity) :
    (applyProperties v e).id = v.id := rfl

/-- After an upsert, a vertex with the upserted id exists. -/
theorem hasVertex_upsert_self (s : Store) (e : GraphEntity) :
    (upsert_entity s e).hasVertex e.id = true := by
  unfold upsert_entity
  by_cases h : s.hasVertex e.id
  · rw [if_pos h]
    unfold Store.hasVertex at h ⊢
    obtain ⟨v, hv, hvid⟩ := List.any_eq_true.mp h
    refine List.any_eq_true.mpr ⟨applyProperties v e, ?_, by simpa using hvid⟩
    refine List.mem_map.mpr ⟨v, hv, ?_⟩
    rw [if_pos hvid]
  · rw [if_neg h]
    simp [Store.hasVertex, create_entity]

/-- An upsert into a store that already holds the id keeps the vertex count. -/
theorem vertexCount_upsert_of_hasVertex (s : Store) (e : GraphEntity)
    (h : s.hasVertex e.id = true) :
    (upsert_entity s e).vertexCount = s.vertexCount := by
  unfold upsert_entity
  rw [if_pos h]
  simp [Store.vertexCount]

/-- C4 amended: re-upserting an entity with unchanged inputs leaves the
vertex count unchanged, but re-invoking create_relationship with the same
relationship adds one more edge each time when the endpoints exist — the
entity side of the claim holds, the relationship side fails. -/
theorem upsert_idempotent_but_relationship_duplicated :
    (∀ (s : Store) (e : GraphEntity),
      Store.vertexCount (upsert_entity (upsert_entity s e) e)
        = Store.vertexCount (upsert_entity s e))
    ∧ (∀ (s : Store) (r : GraphRelationship),
      s.hasVertex r.source_id = true → s.hasVertex r.target_id = true →
      Store.edgeCount (create_relationship (create_relationship s r) r)
        = Store.edgeCount (create_relationship s r) + 1) := by
  constructor
  · intro s e
    exact vertexCount_upsert_of_hasVertex (upsert_entity s e) e
      (hasVertex_upsert_self s e)
  · intro s r h1 h2
    have hfst : create_relationship s r = { s with edges := s.edges ++ [r] } := by
      unfold create_relationship
      rw [if_pos (by rw [h1, h2]; rfl)]
    have h1' : Store.hasVertex { s with edges := s.edges ++ [r] } r.source_id
        = true := h1
    have h2' : Store.hasVertex { s with edges := s.edges ++ [r] } r.target_id
        = true := h2
    rw [hfst]
    unfold create_relationship
    rw [if_pos (by rw [h1', h2']; rfl)]
    simp [Store.edgeCount]

/-- C4 amended witness: on the two-hop chain store both parts hold at the
relationship c DERIVES_FROM b, whose endpoints exist there. -/
theorem upsert_idempotent_but_relationship_duplicated_witness :
    Store.edgeCount
        (create_relationship
          (create_relationship chainStore
            (create_derives_from_relationship "b" "c" (some "t2")))
          (create_derives_from_relationship "b" "c" (some "t2")))
      = Store.edgeCount
          (create_relationship chainStore
            (create_derives_from_relationship "b" "c" (some "t2"))) + 1 :=
  upsert_idempotent_but_relationship_duplicated.2 chainStore
    (create_derives_from_relationship "b" "c" (some "t2"))
    (by decide) (by decide)

/-- Invariant transport through the repeat loop: if an invariant indexed by
the loop counter holds on the frontier and is preserved by the step, every
emitted traverser satisfies it at some loop count within the remaining
fuel. -/
theorem repeatUntil_mem (step : Traverser → List Traverser)
    (emit : Nat → Traverser → Bool) (P : Nat → Traverser → Prop)
    (hstep : ∀ k t, P k t → ∀ t' ∈ step t, P (k + 1) t') :
    ∀ (fuel k : Nat) (frontier : List Traverser),
      (∀ t ∈ frontier, P k t) →
      ∀ t ∈ repeatUntil step emit fuel k frontier,
        ∃ j, k < j ∧ j ≤ k + fuel ∧ P j t := by
  intro fuel
  induction fuel with
  | zero =>
    intro k frontier _ t ht
    simp [repeatUntil] at ht
  | succ fuel ih =>
    intro k frontier hfr t ht
    rw [repeatUntil] at ht
    have hstepped : ∀ u ∈ frontier.flatMap step, P (k + 1) u := by
      intro u hu
      obtain ⟨v, hv, huv⟩ := List.mem_flatMap.mp hu
      exact hstep k v (hfr v hv) u huv
    rcases List.mem_append.mp ht with hemit | hrec
    · exact ⟨k + 1, by omega, by omega,
        hstepped t (List.mem_filter.mp hemit).1⟩
    · have hfr' : ∀ u ∈ (frontier.flatMap step).filter
          (fun u => !(emit (k + 1) u)), P (k + 1) u := by
        intro u hu
        exact hstepped u (List.mem_filter.mp hu).1
      obtain ⟨j, hj1, hj2, hj3⟩ := ih (k + 1) _ hfr' t hrec
      exact ⟨j, by omega, by omega, hj3⟩

/-- A simplePath step preserves the no-repeat invariant and grows the path
by exactly one vertex (incoming-edge direction). -/
theorem stepIn_preserves (edges : List GraphRelationship)
    (labels : List RelationshipType) (rl : Bool) (k : Nat) (t : Traverser)
    (h : t.revVerts.Nodup ∧ t.revVerts.length = k + 1) :
    ∀ t' ∈ stepIn edges labels rl t,
      t'.revVerts.Nodup ∧ t'.revVerts.length = (k + 1) + 1 := by
  intro t' ht'
  obtain ⟨e, _, hsome⟩ := List.mem_filterMap.mp ht'
  rcases (by simpa using hsome :
      e.source_id ∉ t.revVerts
        ∧ Traverser.mk (e.source_id :: t.revVerts) (e :: t.revEdges) = t')
    with ⟨hnm, rfl⟩
  exact ⟨List.nodup_cons.mpr ⟨hnm, h.1⟩, by simp [h.2]⟩

/-- A simplePath step preserves the no-repeat invariant and grows the path
by exactly one vertex (outgoing-edge direction). -/
theorem stepOut_preserves (edges : List GraphRelationship)
    (labels : List RelationshipType) (k : Nat) (t : Traverser)
    (h : t.revVerts.Nodup ∧ t.revVerts.length = k + 1) :
    ∀ t' ∈ stepOut edges labels t,
      t'.revVerts.Nodup ∧ t'.revVerts.length = (k + 1) + 1 := by
  intro t' ht'
  obtain ⟨e, _, hsome⟩ := List.mem_filterMap.mp ht'
  rcases (by simpa using hsome :
      e.target_id ∉ t.revVerts
        ∧ Traverser.mk (e.target_id :: t.revVerts) (e :: t.revEdges) = t')
    with ⟨hnm, rfl⟩
  exact ⟨List.nodup_cons.mpr ⟨hnm, h.1⟩, by simp [h.2]⟩

/-- The initial frontier of g.V(id) satisfies the invariant at loop count
zero. -/
theorem startFrontier_inv (s : Store) (entity_id : String) :
    ∀ t ∈ startFrontier s entity_id,
      t.revVerts.Nodup ∧ t.revVerts.length = 0 + 1 := by
  intro t ht
  unfold startFrontier at ht
  by_cases h : s.hasVertex entity_id
  · rw [if_pos h] at ht
    obtain rfl : t = ⟨[entity_id], []⟩ := by simpa using ht
    exact ⟨List.nodup_singleton _, rfl⟩
  · rw [if_neg h] at ht
    simp at ht

/-- C5: for any store, entity and depth bound of at least one (the range the
validated callers use), both lineage traversals terminate by construction
and every returned path has at most max_depth hops (max_depth plus one
vertices) and repeats no vertex id, the search stopping exactly when no
matching edge extends the frontier or the depth is consumed. -/
theorem traversal_paths_bounded_and_simple :
    ∀ (s : Store) (entity_id : String) (K : Nat), 1 ≤ K →
      ∀ p : List String,
        (p ∈ get_upstream_lineage s entity_id K →
          p.length ≤ K + 1 ∧ p.Nodup)
        ∧ (p ∈ get_downstream_lineage s entity_id K →
          p.length ≤ K + 1 ∧ p.Nodup) := by
  intro s entity_id K _ p
  constructor
  · intro hp
    obtain ⟨t, ht, rfl⟩ := List.mem_map.mp hp
    obtain ⟨j, _, hj2, hnd, hlen⟩ :=
      repeatUntil_mem _ _
        (fun k t => t.revVerts.Nodup ∧ t.revVerts.length = k + 1)
        (fun k t h => stepIn_preserves s.edges lineageLabels false k t h)
        K 0 _ (startFrontier_inv s entity_id) t ht
    refine ⟨?_, by simpa using hnd⟩
    simp only [List.length_reverse, hlen]
    omega
  · intro hp
    obtain ⟨t, ht, rfl⟩ := List.mem_map.mp hp
    obtain ⟨j, _, hj2, hnd, hlen⟩ :=
      repeatUntil_mem _ _
        (fun k t => t.revVerts.Nodup ∧ t.revVerts.length = k + 1)
        (fun k t h => stepOut_preserves s.edges lineageLabels k t h)
        K 0 _ (startFrontier_inv s entity_id) t ht
    refine ⟨?_, by simpa using hnd⟩
    simp only [List.length_reverse, hlen]
    omega

/-- C5 witness: on the two-hop chain, the depth bound two admits the
three-vertex upstream path from a, which indeed has at most two hops and no
repeated vertex. -/
theorem traversal_paths_bounded_and_simple_witness :
    1 ≤ 2
    ∧ (["a", "b", "c"].length ≤ 2 + 1 ∧ ["a", "b", "c"].Nodup) :=
  ⟨by decide,
    (traversal_paths_bounded_and_simple chainStore "a" 2 (by decide)
      ["a", "b", "c"]).1 (by decide)⟩

/-- The value of analyzeAst once the statement classification is known. -/
theorem analyzeAst_eq (a : SqlAst) (c : ClassifyOut)
    (hc : classifyStatement a = Except.ok c) :
    analyzeAst a = Except.ok
      { read := (a.tables.filter (fun t => !(c.write == some t))).dedup
        write :=
          if c.write.getD "" = "" ∧
              ((a.tables.filter (fun t => !(c.write == some t))).dedup ≠ []
                ∨ a.selectProjections.getD [] ≠ []) then some "console"
          else c.write
        columns := a.selectProjections.getD []
        functions_and_procedures := c.functions_and_procedures
        views := c.views
        triggers := c.triggers
        synonyms := c.synonyms
        materialized_views := c.materialized_views
        procedure_calls := extract_procedure_calls a } := by
  unfold analyzeAst
  rw [hc]
  rfl

/-- C2: whenever the statement classification yields a (nonempty) write
target, the record parse_sql returns carries exactly that write target and
its read set excludes it, even when the statement references the target in
its own reads. -/
theorem parse_sql_write_excluded_from_read :
    ∀ (inp : SqlInput) (a : SqlAst) (c : ClassifyOut) (w : String)
      (r : SqlResult),
      inp.parse = ParseOutcome.tree a →
      classifyStatement a = Except.ok c →
      c.write = some w → w ≠ "" →
      parse_sql inp = some r →
      r.write = some w ∧ w ∉ r.read := by
  intro inp a c w r hp hc hw hne hr
  simp only [parse_sql, hp] at hr
  rw [analyzeAst_eq a c hc] at hr
  simp only [Option.some.injEq] at hr
  subst hr
  constructor
  · simp [hw, hne]
  · intro hm
    rw [List.mem_dedup, List.mem_filter] at hm
    rw [hw] at hm
    simp at hm

/-- C2 witness: on INSERT INTO x SELECT * FROM x the record has write x and
an empty read set, the self-reference being excluded. -/
theorem parse_sql_write_excluded_from_read_witness :
    resB.write = some "x" ∧ "x" ∉ resB.read :=
  parse_sql_write_excluded_from_read inpB astB cB "x" resB rfl rfl rfl
    (by decide) (by decide)

/-- C8 counterexample: the analyzer has no typed error channel: a statement
whose kind cannot be classified yields an ordinary record with no write
target rather than an UnsupportedStatementError, and a structurally invalid
input yields None rather than a MalformedInputError, the same value every
other failure yields. -/
theorem analyzer_failures_not_typed :
    parse_sql inpOther
      = some
        { read := []
          write := none
          columns := []
          functions_and_procedures := []
          views := []
          triggers := []
          synonyms := []
          materialized_views := []
          procedure_calls := [] }
    ∧ parse_sql inpRaises = none := by
  decide

/-- C8 amended: the analyzer signals failure by returning a value (None, or
a record without a write target) and never raises past the statement
boundary, so a batch that maps the analyzer over sibling statements
processes every sibling of a bad statement unchanged. -/
theorem analyzer_returns_and_batch_isolated :
    ∀ (xs ys : List SqlInput) (bad : SqlInput),
      parse_sql bad = none →
      parseBatch (xs ++ bad :: ys) = parseBatch xs ++ none :: parseBatch ys := by
  intro xs ys bad h
  simp [parseBatch, h]

/-- C8 amended witness: a raising statement between two good ones leaves
both siblings' outcomes in place. -/
theorem analyzer_returns_and_batch_isolated_witness :
    parseBatch ([inpB] ++ inpRaises :: [inpB])
      = parseBatch [inpB] ++ none :: parseBatch [inpB] :=
  analyzer_returns_and_batch_isolated [inpB] [inpB] inpRaises (by decide)

/-- C9 amended: every query failure, transient or not, is retried with the
bounded exponential backoff up to the fixed cap of three attempts before it
surfaces, while a first-attempt success returns immediately with no wait. -/
theorem retry_caps_and_backoff :
    ∀ b : Nat → QueryOutcome,
      (_execute_query b).attempts ≤ 3
      ∧ (∀ rows, b 1 = QueryOutcome.ok rows →
          _execute_query b = ⟨Except.ok rows, 1, []⟩)
      ∧ ((b 1).isErr = true → (b 2).isErr = true → (b 3).isErr = true →
          (_execute_query b).attempts = 3
          ∧ (_execute_query b).waits = [waitExponential 1, waitExponential 2]) := by
  intro b
  refine ⟨?_, ?_, ?_⟩
  · cases h1 : b 1 <;> cases h2 : b 2 <;> cases h3 : b 3 <;>
      simp [_execute_query, tenacityGo, h1, h2, h3]
  · intro rows h1
    simp [_execute_query, tenacityGo, h1]
  · intro h1 h2 h3
    have hstep : ∀ (n fuel : Nat) (ws : List Nat), (b n).isErr = true →
        tenacityGo b (fuel + 2) n ws
          = tenacityGo b (fuel + 1) (n + 1) (waitExponential n :: ws) := by
      intro n fuel ws h
      cases hb : b n with
      | ok rows => rw [hb] at h; simp [QueryOutcome.isErr] at h
      | gremlinServerError m => simp [tenacityGo, hb]
      | otherError m => simp [tenacityGo, hb]
    have hlast : ∀ (n : Nat) (ws : List Nat), (b n).isErr = true →
        (tenacityGo b 1 n ws).attempts = n
          ∧ (tenacityGo b 1 n ws).waits = ws.reverse := by
      intro n ws h
      cases hb : b n with
      | ok rows => rw [hb] at h; simp [QueryOutcome.isErr] at h
      | gremlinServerError m => simp [tenacityGo, hb]
      | otherError m => simp [tenacityGo, hb]
    have e1 := hstep 1 1 [] h1
    have e2 := hstep 2 0 [waitExponential 1] h2
    have e3 := hlast 3 [waitExponential 2, waitExponential 1] h3
    constructor
    · show (tenacityGo b 3 1 []).attempts = 3
      rw [e1, e2]
      exact e3.1
    · show (tenacityGo b 3 1 []).waits = [waitExponential 1, waitExponential 2]
      rw [e1, e2, e3.2]
      rfl

/-- C9 amended witness: a behaviour throttled on every attempt is retried to
the three-attempt cap with the exponential waits. -/
theorem retry_caps_and_backoff_witness :
    (_execute_query alwaysThrottled).attempts = 3
    ∧ (_execute_query alwaysThrottled).waits
        = [waitExponential 1, waitExponential 2] :=
  (retry_caps_and_backoff alwaysThrottled).2.2 rfl rfl rfl

/-- C10: parse_sql is total at its public interface: a raising parse, a null
tree and an exception inside extraction are each mapped to a None return,
and a successful extraction is returned as a value; no failure escapes to
the caller. -/
theorem parse_sql_total_none_on_failure :
    ∀ inp : SqlInput,
      (inp.parse = ParseOutcome.raises → parse_sql inp = none)
      ∧ (inp.parse = ParseOutcome.nullTree → parse_sql inp = none)
      ∧ (∀ a, inp.parse = ParseOutcome.tree a →
          analyzeAst a = Except.error () → parse_sql inp = none)
      ∧ (∀ a r, inp.parse = ParseOutcome.tree a →
          analyzeAst a = Except.ok r → parse_sql inp = some r) := by
  intro inp
  refine ⟨?_, ?_, ?_, ?_⟩
  · intro h
    simp [parse_sql, h]
  · intro h
    simp [parse_sql, h]
  · intro a hp hA
    simp [parse_sql, hp, hA]
  · intro a r hp hA
    simp [parse_sql, hp, hA]

/-- C10 witness: a raising parse and an extraction that raises internally
both return None. -/
theorem parse_sql_total_none_on_failure_witness :
    parse_sql inpRaises = none ∧ parse_sql inpKindNone = none :=
  ⟨(parse_sql_total_none_on_failure inpRaises).1 rfl,
    (parse_sql_total_none_on_failure inpKindNone).2.2.1 astKindNone rfl rfl⟩

/-- C9 counterexample: a non-transient failure (a malformed query raising a
GremlinServerError without the throttling message) is not propagated
immediately: it is retried until the three-attempt cap with exponential
waits, exactly like a transient one. -/
theorem nontransient_error_retried_not_immediate :
    _execute_query (fun _ => QueryOutcome.gremlinServerError "malformed query")
      = ⟨Except.error "malformed query", 3, [2, 4]⟩ := by
  decide

end FinLineage
